import Mathlib

/-!
Shallow embedding of the landing-page analyzer.

Embedded source files:
* `src/unnamed/part_000` — the `POST` handler of the analyze API route in
  its fuller variant (it includes the page-speed analyzer in addition to
  the font, image and CTA analyzers of `src/app/api/analyze/route.ts`;
  the two variants agree on validation, on the `overallScore` formula, on
  the response shape and on which analyzer blocks are guarded by
  `try`/`catch`, so every claim settled here has the same truth value on
  both variants).
* `src/unnamed/part_001` — `createPuppeteerBrowser`, the browser session
  factory.
* `src/app/page.tsx` — the client page component `Home`: its
  `AnalysisState`, the `pendingEmailRef` single-slot email holder and the
  handlers `handleAnalyze`, `handleEmailSubmit`, `callEmailAPI`,
  `handleReset`, plus the screenshot promise continuation.

The four analyzer functions (`analyzePageSpeed`, `analyzeFontUsage`,
`analyzeImageOptimization`, `analyzeCTA`) are external black boxes from
the route's point of view; they are modelled as an environment of
`Except`-valued results (`.error` models a thrown exception / rejected
promise, exactly what a `try`/`catch` in the route would observe).
-/

namespace LPA

/-- Truthiness of an optional string as JavaScript sees it for `!x` and
`x || y`: an absent field (`undefined`/`null`) and the empty string are
falsy, every other string is truthy. -/
def truthy : Option String → Bool
  | none => false
  | some s => !(s == "")

/-- JavaScript `a || b` on optional strings: `a` if truthy, else `b`. -/
def jsOrElse (a b : Option String) : Option String :=
  if truthy a then a else b

/-! ## Data shapes of the analysis result (part_000, lines 44-63) -/

/-- The `metrics` object of the page-speed section: `{ lcp, fcp, cls, tbt, si }`. -/
structure SpeedMetrics where
  lcp : Nat
  fcp : Nat
  cls : Nat
  tbt : Nat
  si : Nat
  deriving Repr, DecidableEq

/-- Shape of `analysisResult.pageLoadSpeed` and of the value returned by
`analyzePageSpeed` (the route copies it field by field). -/
structure PageSpeedResult where
  score : Nat
  grade : String
  metrics : SpeedMetrics
  lighthouseScore : Nat
  issues : List String
  recommendations : List String
  loadTime : Nat
  deriving Repr, DecidableEq

/-- Shape of `analysisResult.fontUsage` and of the value returned by
`analyzeFontUsage`. -/
structure FontUsageResult where
  score : Nat
  fontFamilies : List String
  fontCount : Nat
  issues : List String
  recommendations : List String
  deriving Repr, DecidableEq

/-- Shape of `analysisResult.imageOptimization` and of the value returned
by `analyzeImageOptimization`; `details` is an opaque key/value record. -/
structure ImageOptimizationResult where
  score : Nat
  totalImages : Nat
  modernFormats : Nat
  withAltText : Nat
  appropriatelySized : Nat
  issues : List String
  recommendations : List String
  details : List (String × String)
  deriving Repr, DecidableEq

/-- One CTA entry as produced by `analyzeCTA` and copied into the report. -/
structure CTAItem where
  text : String
  type : String
  isAboveFold : Bool
  actionStrength : String
  urgency : String
  visibility : String
  context : String
  deriving Repr, DecidableEq

/-- The projected `primaryCTA` object the route builds (part_000 lines
149-155): only text, type, actionStrength, visibility, context are kept. -/
structure PrimaryCTAInfo where
  text : String
  type : String
  actionStrength : String
  visibility : String
  context : String
  deriving Repr, DecidableEq

/-- Value returned by `analyzeCTA`. -/
structure CTAResult where
  score : Nat
  ctas : List CTAItem
  primaryCTA : Option CTAItem
  issues : List String
  recommendations : List String
  deriving Repr, DecidableEq

/-- Shape of `analysisResult.ctaAnalysis` (projected CTA data). -/
structure CTASection where
  score : Nat
  ctas : List CTAItem
  primaryCTA : Option PrimaryCTAInfo
  issues : List String
  recommendations : List String
  deriving Repr, DecidableEq

/-- Shape of `analysisResult.whitespaceAssessment`. -/
structure WhitespaceAssessment where
  score : Nat
  issues : List String
  deriving Repr, DecidableEq

/-- Shape of `analysisResult.socialProof`. -/
structure SocialProof where
  score : Nat
  elements : List String
  issues : List String
  deriving Repr, DecidableEq

/-- The full `analysisResult` object assembled by the route. -/
structure AnalysisResult where
  url : String
  pageLoadSpeed : PageSpeedResult
  fontUsage : FontUsageResult
  imageOptimization : ImageOptimizationResult
  ctaAnalysis : CTASection
  whitespaceAssessment : WhitespaceAssessment
  socialProof : SocialProof
  overallScore : Nat
  status : String
  deriving Repr, DecidableEq

/-- The initial `analysisResult` literal (part_000 lines 44-63): every
section zeroed, `status: 'completed'`. -/
def initialAnalysisResult (url : String) : AnalysisResult :=
  { url := url
    pageLoadSpeed :=
      { score := 0, grade := "F", metrics := { lcp := 0, fcp := 0, cls := 0, tbt := 0, si := 0 },
        lighthouseScore := 0, issues := [], recommendations := [], loadTime := 0 }
    fontUsage := { score := 0, fontFamilies := [], fontCount := 0, issues := [], recommendations := [] }
    imageOptimization :=
      { score := 0, totalImages := 0, modernFormats := 0, withAltText := 0,
        appropriatelySized := 0, issues := [], recommendations := [], details := [] }
    ctaAnalysis := { score := 0, ctas := [], primaryCTA := none, issues := [], recommendations := [] }
    whitespaceAssessment := { score := 0, issues := [] }
    socialProof := { score := 0, elements := [], issues := [] }
    overallScore := 0
    status := "completed" }

/-- The replacement `pageLoadSpeed` object written by the `catch` branch of
the page-speed block (part_000 lines 88-97). -/
def pageSpeedFailureSection : PageSpeedResult :=
  { score := 0, grade := "F", metrics := { lcp := 0, fcp := 0, cls := 0, tbt := 0, si := 0 },
    lighthouseScore := 0, issues := ["Page speed analysis failed due to error"],
    recommendations := [], loadTime := 0 }

/-- The replacement `ctaAnalysis` object written by the `catch` branch of
the CTA block (part_000 lines 160-165). -/
def ctaFailureSection : CTASection :=
  { score := 0, ctas := [], primaryCTA := none,
    issues := ["CTA analysis failed due to error"], recommendations := [] }

/-! ## Analyzer environment -/

/-- Results of the four awaited analyzer calls for one run; `.error msg`
models the promise rejecting (the analyzer throwing) with that message. -/
structure AnalyzerEnv where
  analyzePageSpeed : Except String PageSpeedResult
  analyzeFontUsage : Except String FontUsageResult
  analyzeImageOptimization : Except String ImageOptimizationResult
  analyzeCTA : Except String CTAResult
  deriving Repr

/-! ## URL validation (part_000 lines 28-42)

The route does `new URL(url)` and then checks
`['http:', 'https:'].includes(validatedUrl.protocol)`.  The parse is
modelled (in abbreviated form) as splitting the string at the first
occurrence of `://`; scheme and remainder must be nonempty.  WHATWG
normalisation of the parsed URL is not modelled: `toString()` is the raw
input string. -/

/-- A parsed URL: its `protocol` (scheme plus the trailing colon, as in
the WHATWG API) and the raw input string standing in for `toString()`. -/
structure ParsedURL where
  protocol : String
  raw : String
  deriving Repr, DecidableEq

/-- Scan for the first `://`, accumulating the scheme characters in
reverse; returns the scheme and the remainder. -/
def splitSchemeAux : List Char → List Char → Option (String × String)
  | acc, ':' :: '/' :: '/' :: rest => some (String.mk acc.reverse, String.mk rest)
  | acc, c :: rest => splitSchemeAux (c :: acc) rest
  | _acc, [] => none

/-- Model of `new URL(s)`: succeeds when `s` has the form
`scheme://rest` with nonempty scheme and rest, else throws (`none`). -/
def parseURL (s : String) : Option ParsedURL :=
  match splitSchemeAux [] s.data with
  | some (scheme, rest) =>
      if scheme == "" || rest == "" then none
      else some { protocol := scheme ++ ":", raw := s }
  | none => none

/-! ## The analyzer blocks of the POST handler (part_000 lines 67-167) -/

/-- `shouldRun` (part_000 line 67):
`!component || component === 'all' || component === componentName`. -/
def shouldRun (component : Option String) (componentName : String) : Bool :=
  !(truthy component) || component == some "all" || component == some componentName

/-- The page-speed block's `if` condition (part_000 line 69):
`shouldRun('speed') || shouldRun('pageSpeed')`. -/
def speedSelected (component : Option String) : Bool :=
  shouldRun component "speed" || shouldRun component "pageSpeed"

/-- Field-by-field copy of the page-speed result into the report
(part_000 lines 73-81). -/
def pageLoadSpeedOf (r : PageSpeedResult) : PageSpeedResult :=
  { score := r.score, grade := r.grade, metrics := r.metrics,
    lighthouseScore := r.lighthouseScore, issues := r.issues,
    recommendations := r.recommendations, loadTime := r.loadTime }

/-- Field-by-field copy of the font result (part_000 lines 102-108). -/
def fontUsageOf (r : FontUsageResult) : FontUsageResult :=
  { score := r.score, fontFamilies := r.fontFamilies, fontCount := r.fontCount,
    issues := r.issues, recommendations := r.recommendations }

/-- Field-by-field copy of the image result (part_000 lines 114-123). -/
def imageOptimizationOf (r : ImageOptimizationResult) : ImageOptimizationResult :=
  { score := r.score, totalImages := r.totalImages, modernFormats := r.modernFormats,
    withAltText := r.withAltText, appropriatelySized := r.appropriatelySized,
    issues := r.issues, recommendations := r.recommendations, details := r.details }

/-- The `ctaAnalysis` object built from a successful CTA result
(part_000 lines 137-158): ctas mapped field by field, `primaryCTA`
projected to five fields when present. -/
def ctaSectionOf (r : CTAResult) : CTASection :=
  { score := r.score
    ctas := r.ctas.map (fun cta =>
      { text := cta.text, type := cta.type, isAboveFold := cta.isAboveFold,
        actionStrength := cta.actionStrength, urgency := cta.urgency,
        visibility := cta.visibility, context := cta.context })
    primaryCTA := r.primaryCTA.map (fun p =>
      { text := p.text, type := p.type, actionStrength := p.actionStrength,
        visibility := p.visibility, context := p.context })
    issues := r.issues
    recommendations := r.recommendations }

/-- Mutable state threaded through the analyzer blocks: the
`analysisResult` object being built up, the `scores` array, and (as an
observation) the list of analyzers that were actually invoked. -/
structure PipelineState where
  result : AnalysisResult
  scores : List Nat
  invoked : List String
  deriving Repr, DecidableEq

/-- The page-speed block (part_000 lines 69-99).  It is wrapped in
`try`/`catch`: an analyzer error only replaces the section with
`pageSpeedFailureSection` and pushes no score. -/
def speedBlock (component : Option String) (env : AnalyzerEnv) (st : PipelineState) : PipelineState :=
  if speedSelected component then
    match env.analyzePageSpeed with
    | .ok r =>
        { result := { st.result with pageLoadSpeed := pageLoadSpeedOf r },
          scores := st.scores ++ [r.score],
          invoked := st.invoked ++ ["speed"] }
    | .error _ =>
        { result := { st.result with pageLoadSpeed := pageSpeedFailureSection },
          scores := st.scores,
          invoked := st.invoked ++ ["speed"] }
  else st

/-- The font block (part_000 lines 101-111).  It has NO `try`/`catch`:
the second component of the return value carries the thrown error, which
the caller propagates to the route's outer `catch`. -/
def fontBlock (component : Option String) (env : AnalyzerEnv) (st : PipelineState) :
    PipelineState × Option String :=
  if shouldRun component "font" then
    match env.analyzeFontUsage with
    | .ok r =>
        ({ result := { st.result with fontUsage := fontUsageOf r },
           scores := st.scores ++ [r.score],
           invoked := st.invoked ++ ["font"] }, none)
    | .error e => ({ st with invoked := st.invoked ++ ["font"] }, some e)
  else (st, none)

/-- The image block (part_000 lines 113-126).  Like the font block it has
NO `try`/`catch`; a thrown error propagates. -/
def imageBlock (component : Option String) (env : AnalyzerEnv) (st : PipelineState) :
    PipelineState × Option String :=
  if shouldRun component "image" then
    match env.analyzeImageOptimization with
    | .ok r =>
        ({ result := { st.result with imageOptimization := imageOptimizationOf r },
           scores := st.scores ++ [r.score],
           invoked := st.invoked ++ ["image"] }, none)
    | .error e => ({ st with invoked := st.invoked ++ ["image"] }, some e)
  else (st, none)

/-- The CTA block (part_000 lines 128-167).  Wrapped in `try`/`catch`:
an error only replaces the section with `ctaFailureSection`. -/
def ctaBlock (component : Option String) (env : AnalyzerEnv) (st : PipelineState) : PipelineState :=
  if shouldRun component "cta" then
    match env.analyzeCTA with
    | .ok r =>
        { result := { st.result with ctaAnalysis := ctaSectionOf r },
          scores := st.scores ++ [r.score],
          invoked := st.invoked ++ ["cta"] }
    | .error _ =>
        { result := { st.result with ctaAnalysis := ctaFailureSection },
          scores := st.scores,
          invoked := st.invoked ++ ["cta"] }
  else st

/-- `Math.round(scores.reduce((sum, score) => sum + score, 0) / scores.length)`
for natural scores: JavaScript `Math.round` rounds half toward plus
infinity, i.e. `⌊sum/len + 1/2⌋ = (2*sum + len) / (2*len)` in `Nat`
division. -/
def mathRoundDiv (sum len : Nat) : Nat :=
  (2 * sum + len) / (2 * len)

/-- The `overallScore` assignment (part_000 line 169):
`scores.length > 0 ? Math.round(...) : 0`. -/
def computeOverall (scores : List Nat) : Nat :=
  if scores.length > 0 then mathRoundDiv scores.sum scores.length else 0

/-- The analyzer section of the POST handler: the four blocks in source
order (speed, font, image, cta), then the `overallScore` assignment.  A
`some e` in the second component is an exception escaping the unguarded
font or image block. -/
def runAnalyzers (component : Option String) (env : AnalyzerEnv) (ustr : String) :
    PipelineState × Option String :=
  let st0 : PipelineState := { result := initialAnalysisResult ustr, scores := [], invoked := [] }
  let st1 := speedBlock component env st0
  match fontBlock component env st1 with
  | (st2, some e) => (st2, some e)
  | (st2, none) =>
    match imageBlock component env st2 with
    | (st3, some e) => (st3, some e)
    | (st3, none) =>
      let st4 := ctaBlock component env st3
      ({ st4 with result := { st4.result with overallScore := computeOverall st4.scores } }, none)

/-! ## The POST handler itself -/

/-- The request body as the route destructures it:
`const { url, component } = body` (plus the `forceRescan` flag the client
sends, which the route never reads). -/
structure AnalyzeBody where
  url : Option String
  component : Option String
  forceRescan : Option Bool
  deriving Repr, DecidableEq

/-- A `NextResponse.json` value produced by the route: either the success
payload `{ success: true, analysis, message }` (HTTP 200) or an error
payload `{ error }` with an explicit status. -/
inductive PostResponse
  | success (analysis : AnalysisResult)
  | jsonError (error : String) (status : Nat)
  deriving Repr, DecidableEq

/-- HTTP status of a response (`NextResponse.json` defaults to 200). -/
def statusOf : PostResponse → Nat
  | .success _ => 200
  | .jsonError _ s => s

/-- Whether the response is the success payload. -/
def PostResponse.isSuccess : PostResponse → Bool
  | .success _ => true
  | .jsonError _ _ => false

/-- The top-level keys of the JSON object literal each response is built
from (part_000 lines 175-179 and the `NextResponse.json` error calls). -/
def responseKeys : PostResponse → List String
  | .success _ => ["success", "analysis", "message"]
  | .jsonError _ _ => ["error"]

/-- The analysis payload of a success response, if any. -/
def analysisOf : PostResponse → Option AnalysisResult
  | .success a => some a
  | .jsonError _ _ => none

/-- The POST handler (part_000 lines 9-187).  Returns the response
together with the list of analyzers that were invoked during the run
(empty on validation failure; a prefix of the selected analyzers when an
unguarded analyzer throws).  The outer `try`/`catch` of the route maps
any escaped exception to `{ error: 'Internal server error' }` 500. -/
def POST (body : AnalyzeBody) (env : AnalyzerEnv) : PostResponse × List String :=
  if truthy body.url = false then (.jsonError "URL is required" 400, [])
  else
    match parseURL (body.url.getD "") with
    | none => (.jsonError "Invalid URL format" 400, [])
    | some u =>
      if (u.protocol == "http:" || u.protocol == "https:") = false then
        (.jsonError "Invalid URL format" 400, [])
      else
        match runAnalyzers body.component env u.raw with
        | (st, some _) => (.jsonError "Internal server error" 500, st.invoked)
        | (st, none) => (.success st.result, st.invoked)

/-! ## Derived, claim-side descriptions of a run -/

/-- Score contributed by the page-speed block when it succeeds. -/
def speedScores (component : Option String) (env : AnalyzerEnv) : List Nat :=
  if speedSelected component then
    match env.analyzePageSpeed with
    | .ok r => [r.score]
    | .error _ => []
  else []

/-- Score contributed by the font block when it succeeds. -/
def fontScores (component : Option String) (env : AnalyzerEnv) : List Nat :=
  if shouldRun component "font" then
    match env.analyzeFontUsage with
    | .ok r => [r.score]
    | .error _ => []
  else []

/-- Score contributed by the image block when it succeeds. -/
def imageScores (component : Option String) (env : AnalyzerEnv) : List Nat :=
  if shouldRun component "image" then
    match env.analyzeImageOptimization with
    | .ok r => [r.score]
    | .error _ => []
  else []

/-- Score contributed by the CTA block when it succeeds. -/
def ctaScores (component : Option String) (env : AnalyzerEnv) : List Nat :=
  if shouldRun component "cta" then
    match env.analyzeCTA with
    | .ok r => [r.score]
    | .error _ => []
  else []

/-- The scores of the analyzers that ran and succeeded, in block order. -/
def succeededScores (component : Option String) (env : AnalyzerEnv) : List Nat :=
  speedScores component env ++ fontScores component env
    ++ imageScores component env ++ ctaScores component env

/-- The analyzers selected by the component filter, in block order. -/
def selectedAnalyzers (component : Option String) : List String :=
  (if speedSelected component then ["speed"] else [])
    ++ (if shouldRun component "font" then ["font"] else [])
    ++ (if shouldRun component "image" then ["image"] else [])
    ++ (if shouldRun component "cta" then ["cta"] else [])

/-! ## Browser session factory (src/unnamed/part_001, `createPuppeteerBrowser`) -/

/-- The ambient configuration the factory reads:
`process.env.NODE_ENV === 'production'` and `process.env.BLESS_KEY`. -/
structure BrowserEnvConfig where
  isProduction : Bool
  blessKey : Option String
  deriving Repr, DecidableEq

/-- The factory's `options` argument (defaults `false`/`false`). -/
structure PuppeteerOptions where
  forceBrowserless : Bool
  blockConsentModals : Bool
  deriving Repr, DecidableEq

/-- What the factory hands back: a remote connection to the given
WebSocket endpoint, or a locally launched browser. -/
inductive BrowserConn
  | remote (browserWSEndpoint : String)
  | localLaunch
  deriving Repr, DecidableEq

/-- The `browserWSEndpoint` string built in part_001 lines 32-43; the
`launch` query parameter carries the URL-encoded JSON
`%7B%22blockConsentModals%22%3Atrue%7D`. -/
def browserWSEndpointFor (key : String) (blockConsentModals : Bool) : String :=
  let base := "wss://production-sfo.browserless.io?token=" ++ key
    ++ "&headless=false&stealth=true&blockAds=true"
  if blockConsentModals then base ++ "&launch=%7B%22blockConsentModals%22%3Atrue%7D" else base

/-- `createPuppeteerBrowser` (part_001 lines 19-68).  `connectResult`
models the outcome of `puppeteer.connect` on the remote endpoint
(`.error msg` is a rejection carrying `error.message`).  The local
`puppeteer.launch` path is modelled as always returning a browser.  Note
the `catch` branch re-throws: a failed remote connection is never
silently replaced by a local launch. -/
def createPuppeteerBrowser (cfg : BrowserEnvConfig) (opts : PuppeteerOptions)
    (connectResult : Except String Unit) : Except String BrowserConn :=
  if (cfg.isProduction || opts.forceBrowserless) && truthy cfg.blessKey then
    match connectResult with
    | .ok _ => .ok (.remote (browserWSEndpointFor (cfg.blessKey.getD "") opts.blockConsentModals))
    | .error msg => .error ("Browserless connection failed: " ++ msg)
  else .ok .localLaunch

/-- Observation: did the factory's outcome involve a remote connection
attempt?  (In this model only the remote path can produce an error, and
only the remote path produces a `remote` connection.) -/
def attemptedRemote : Except String BrowserConn → Bool
  | .ok (.remote _) => true
  | .error _ => true
  | .ok .localLaunch => false

/-! ## Client page state machine (src/app/page.tsx, `Home`) -/

/-- The part of the analysis payload the client actually inspects:
`analysisData.screenshotUrl` plus the rest of the report, opaque to the
client (`payload`). -/
structure ClientAnalysisData where
  screenshotUrl : Option String
  payload : String
  deriving Repr, DecidableEq

/-- A successful `/api/analyze` response as the client reads it:
`result.analysis || result` (already extracted here), `result.fromCache`
and `result.analysisId` (both absent fields with the routes in this
repository, but the client guards them with `|| false` / `|| null`). -/
structure AnalyzeSuccessResponse where
  analysisData : ClientAnalysisData
  fromCache : Option Bool
  analysisId : Option String
  deriving Repr, DecidableEq

/-- The `AnalysisState` interface of page.tsx (lines 15-27). -/
structure AnalysisState where
  result : Option ClientAnalysisData
  isLoading : Bool
  error : Option String
  showEmailInput : Bool
  currentUrl : Option String
  fromCache : Bool
  emailSubmitted : Bool
  emailSentToAPI : Bool
  screenshotUrl : Option String
  analysisId : Option String
  emailLoading : Bool
  deriving Repr, DecidableEq

/-- The initial `useState` value of `analysisState` (page.tsx lines 30-42). -/
def initialAnalysisState : AnalysisState :=
  { result := none, isLoading := false, error := none, showEmailInput := false,
    currentUrl := none, fromCache := false, emailSubmitted := false,
    emailSentToAPI := false, screenshotUrl := none, analysisId := none,
    emailLoading := false }

/-- The whole client state: the React state, the `pendingEmailRef`
mutable cell (page.tsx line 44), and — as an observation — the list of
`(email, analysisId)` pairs posted to `/api/email` so far. -/
structure HomeState where
  analysisState : AnalysisState
  pendingEmail : Option String
  emailCalls : List (String × String)
  deriving Repr, DecidableEq

/-- The client state before any interaction. -/
def initialHomeState : HomeState :=
  { analysisState := initialAnalysisState, pendingEmail := none, emailCalls := [] }

/-- `callEmailAPI` (page.tsx lines 143-172): posts `{email, analysisId}`
to `/api/email` and — whether the post succeeds or fails — sets
`emailSentToAPI: true, emailLoading: false`. -/
def callEmailAPI (email analysisId : String) (st : HomeState) : HomeState :=
  { st with
    emailCalls := st.emailCalls ++ [(email, analysisId)],
    analysisState := { st.analysisState with emailSentToAPI := true, emailLoading := false } }

/-- The opening `setAnalysisState` of `handleAnalyze` (page.tsx lines
47-60): every `AnalysisState` field is reset and the URL recorded.
`pendingEmailRef` is NOT touched here. -/
def handleAnalyzeStart (url : String) (st : HomeState) : HomeState :=
  { st with analysisState :=
    { result := none, isLoading := true, error := none, showEmailInput := true,
      currentUrl := some url, fromCache := false, emailSubmitted := false,
      emailSentToAPI := false, screenshotUrl := none, analysisId := none,
      emailLoading := false } }

/-- The screenshot promise's `then` continuation (page.tsx lines 69-76):
on an OK response it stores `screenshotResult.screenshot?.url || null`
into `screenshotUrl`, unconditionally overwriting the previous value. -/
def screenshotResolve (u : Option String) (st : HomeState) : HomeState :=
  { st with analysisState := { st.analysisState with screenshotUrl := jsOrElse u none } }

/-- The screenshot promise's `catch` (page.tsx lines 77-80): the failure
is only logged; the client state is untouched and the analysis is not
affected. -/
def screenshotReject (st : HomeState) : HomeState := st

/-- The success continuation of `handleAnalyze` (page.tsx lines 93-118):
stores the report, `result.fromCache || false`,
`result.analysisId || null` and
`analysisData.screenshotUrl || prev.screenshotUrl`; then, if a pending
email is held AND the response carried an analysisId, posts the pending
email against that id and clears the holder. -/
def handleAnalyzeSuccess (resp : AnalyzeSuccessResponse) (st : HomeState) : HomeState :=
  let st1 := { st with analysisState :=
    { st.analysisState with
      result := some resp.analysisData,
      isLoading := false,
      error := none,
      fromCache := resp.fromCache.getD false,
      analysisId := jsOrElse resp.analysisId none,
      screenshotUrl := jsOrElse resp.analysisData.screenshotUrl st.analysisState.screenshotUrl } }
  if truthy st.pendingEmail && truthy resp.analysisId then
    let st2 := callEmailAPI (st.pendingEmail.getD "") (resp.analysisId.getD "") st1
    { st2 with pendingEmail := none }
  else st1

/-- The `catch` of `handleAnalyze` (page.tsx lines 119-126): records the
error message; `pendingEmailRef` again untouched. -/
def handleAnalyzeFailure (msg : String) (st : HomeState) : HomeState :=
  { st with analysisState :=
    { st.analysisState with result := none, isLoading := false, error := some msg } }

/-- `handleEmailSubmit` (page.tsx lines 129-141): flags the submission,
then either dispatches immediately (an analysisId is already known) or
stores the email in the single-slot `pendingEmailRef`, overwriting any
earlier pending value. -/
def handleEmailSubmit (email : String) (st : HomeState) : HomeState :=
  let st1 := { st with analysisState :=
    { st.analysisState with emailLoading := true, emailSubmitted := true } }
  if truthy st.analysisState.analysisId then
    callEmailAPI email (st.analysisState.analysisId.getD "") st1
  else { st1 with pendingEmail := some email }

/-- `handleReset` (page.tsx lines 174-190): clears `pendingEmailRef` and
resets the state wholesale. -/
def handleReset (st : HomeState) : HomeState :=
  { analysisState := initialAnalysisState, pendingEmail := none, emailCalls := st.emailCalls }

/-- Folding a burst of email submissions, first to last. -/
def submitEmails (es : List String) (st : HomeState) : HomeState :=
  es.foldl (fun s e => handleEmailSubmit e s) st

/-! ## Concrete fixtures used by witnesses and counterexamples -/

/-- A successful page-speed analyzer result with score 80. -/
def okSpeedR : PageSpeedResult :=
  { score := 80, grade := "B", metrics := { lcp := 2, fcp := 1, cls := 0, tbt := 3, si := 2 },
    lighthouseScore := 80, issues := [], recommendations := [], loadTime := 1200 }

/-- A successful font analyzer result with score 60. -/
def okFontR : FontUsageResult :=
  { score := 60, fontFamilies := ["Inter", "Georgia"], fontCount := 2,
    issues := [], recommendations := [] }

/-- A successful image analyzer result with score 90. -/
def okImageR : ImageOptimizationResult :=
  { score := 90, totalImages := 3, modernFormats := 3, withAltText := 3,
    appropriatelySized := 3, issues := [], recommendations := [], details := [] }

/-- A successful CTA analyzer result with score 70. -/
def okCtaR : CTAResult :=
  { score := 70,
    ctas := [{ text := "Sign up", type := "button", isAboveFold := true,
               actionStrength := "strong", urgency := "high", visibility := "high",
               context := "hero" }],
    primaryCTA := some { text := "Sign up", type := "button", isAboveFold := true,
                         actionStrength := "strong", urgency := "high",
                         visibility := "high", context := "hero" },
    issues := [], recommendations := [] }

/-- Environment in which all four analyzers succeed with scores
80 / 60 / 90 / 70 (the spec's worked example). -/
def envAllOk : AnalyzerEnv :=
  { analyzePageSpeed := .ok okSpeedR, analyzeFontUsage := .ok okFontR,
    analyzeImageOptimization := .ok okImageR, analyzeCTA := .ok okCtaR }

/-- Environment in which exactly the page-speed analyzer throws. -/
def envSpeedFail : AnalyzerEnv :=
  { envAllOk with analyzePageSpeed := .error "navigation timeout" }

/-- Environment in which exactly the font analyzer throws. -/
def envFontFail : AnalyzerEnv :=
  { envAllOk with analyzeFontUsage := .error "page crashed" }

/-- Environment in which all four analyzers throw. -/
def envAllFail : AnalyzerEnv :=
  { analyzePageSpeed := .error "boom", analyzeFontUsage := .error "boom",
    analyzeImageOptimization := .error "boom", analyzeCTA := .error "boom" }

/-- A request body with a valid URL and no component filter. -/
def allBody : AnalyzeBody :=
  { url := some "https://example.com", component := none, forceRescan := none }

/-! ## Helper lemmas about the pipeline -/

lemma speedBlock_scores (c : Option String) (env : AnalyzerEnv) (st : PipelineState) :
    (speedBlock c env st).scores = st.scores ++ speedScores c env := by
  unfold speedBlock speedScores
  split
  · cases env.analyzePageSpeed <;> simp
  · simp

lemma speedBlock_invoked (c : Option String) (env : AnalyzerEnv) (st : PipelineState) :
    (speedBlock c env st).invoked
      = st.invoked ++ (if speedSelected c then ["speed"] else []) := by
  unfold speedBlock
  split
  case isTrue h => cases env.analyzePageSpeed <;> simp [h]
  case isFalse h => simp [h]

lemma ctaBlock_scores (c : Option String) (env : AnalyzerEnv) (st : PipelineState) :
    (ctaBlock c env st).scores = st.scores ++ ctaScores c env := by
  unfold ctaBlock ctaScores
  split
  · cases env.analyzeCTA <;> simp
  · simp

lemma ctaBlock_invoked (c : Option String) (env : AnalyzerEnv) (st : PipelineState) :
    (ctaBlock c env st).invoked
      = st.invoked ++ (if shouldRun c "cta" then ["cta"] else []) := by
  unfold ctaBlock
  split
  case isTrue h => cases env.analyzeCTA <;> simp [h]
  case isFalse h => simp [h]

lemma fontBlock_none (c : Option String) (env : AnalyzerEnv) (st st' : PipelineState)
    (h : fontBlock c env st = (st', none)) :
    st'.scores = st.scores ++ fontScores c env ∧
    st'.invoked = st.invoked ++ (if shouldRun c "font" then ["font"] else []) := by
  unfold fontBlock at h
  split at h
  case isTrue hsel =>
    cases henv : env.analyzeFontUsage with
    | ok r =>
      rw [henv] at h
      simp only [Prod.mk.injEq] at h
      simp [← h.1, fontScores, hsel, henv]
    | error e =>
      rw [henv] at h
      simp at h
  case isFalse hsel =>
    simp only [Prod.mk.injEq] at h
    simp [← h.1, fontScores, hsel]

lemma imageBlock_none (c : Option String) (env : AnalyzerEnv) (st st' : PipelineState)
    (h : imageBlock c env st = (st', none)) :
    st'.scores = st.scores ++ imageScores c env ∧
    st'.invoked = st.invoked ++ (if shouldRun c "image" then ["image"] else []) := by
  unfold imageBlock at h
  split at h
  case isTrue hsel =>
    cases henv : env.analyzeImageOptimization with
    | ok r =>
      rw [henv] at h
      simp only [Prod.mk.injEq] at h
      simp [← h.1, imageScores, hsel, henv]
    | error e =>
      rw [henv] at h
      simp at h
  case isFalse hsel =>
    simp only [Prod.mk.injEq] at h
    simp [← h.1, imageScores, hsel]

/-- When the analyzer section completes without an escaped exception, the
accumulated scores are exactly the succeeded analyzers' scores, the
invoked analyzers are exactly the selected ones, and the report's
`overallScore` is the rounded mean of the accumulated scores. -/
lemma runAnalyzers_ok (c : Option String) (env : AnalyzerEnv) (u : String)
    (st : PipelineState) (h : runAnalyzers c env u = (st, none)) :
    st.scores = succeededScores c env ∧
    st.invoked = selectedAnalyzers c ∧
    st.result.overallScore = computeOverall (succeededScores c env) := by
  simp only [runAnalyzers] at h
  rcases h2 : fontBlock c env
      (speedBlock c env { result := initialAnalysisResult u, scores := [], invoked := [] })
    with ⟨st2, e2⟩
  rw [h2] at h
  cases e2 with
  | some e => simp at h
  | none =>
    dsimp only at h
    rcases h3 : imageBlock c env st2 with ⟨st3, e3⟩
    rw [h3] at h
    cases e3 with
    | some e => simp at h
    | none =>
      dsimp only at h
      simp only [Prod.mk.injEq, and_true] at h
      obtain ⟨hsc2, hin2⟩ := fontBlock_none c env _ st2 h2
      obtain ⟨hsc3, hin3⟩ := imageBlock_none c env st2 st3 h3
      have hscores : st.scores = succeededScores c env := by
        rw [← h]
        show (ctaBlock c env st3).scores = _
        rw [ctaBlock_scores, hsc3, hsc2, speedBlock_scores]
        simp [succeededScores]
      refine ⟨hscores, ?_, ?_⟩
      · rw [← h]
        show (ctaBlock c env st3).invoked = _
        rw [ctaBlock_invoked, hin3, hin2, speedBlock_invoked]
        simp [selectedAnalyzers]
      · rw [← h]
        show computeOverall (ctaBlock c env st3).scores = _
        rw [ctaBlock_scores, hsc3, hsc2, speedBlock_scores]
        simp [succeededScores]

/-- Every run of the POST handler that answers with the success payload
has `overallScore` equal to the rounded mean of the succeeded analyzers'
scores, and invoked exactly the selected analyzers. -/
lemma POST_success (body : AnalyzeBody) (env : AnalyzerEnv) (a : AnalysisResult)
    (tr : List String) (h : POST body env = (.success a, tr)) :
    a.overallScore = computeOverall (succeededScores body.component env) ∧
    tr = selectedAnalyzers body.component := by
  unfold POST at h
  split at h
  · simp at h
  · split at h
    · simp at h
    · split at h
      · simp at h
      · rcases hr : runAnalyzers body.component env _ with ⟨st, e⟩
        rw [hr] at h
        cases e with
        | some e => simp at h
        | none =>
          simp only [Prod.mk.injEq, PostResponse.success.injEq] at h
          obtain ⟨hsc, hin, hov⟩ := runAnalyzers_ok _ _ _ _ hr
          refine ⟨?_, ?_⟩
          · rw [← h.1]; exact hov
          · rw [← h.2]; exact hin

/-- The report the route assembles for `allBody` under `envAllOk`:
all four sections filled in, `overallScore = 75`. -/
def reportAllOk : AnalysisResult :=
  { initialAnalysisResult "https://example.com" with
    pageLoadSpeed := pageLoadSpeedOf okSpeedR,
    fontUsage := fontUsageOf okFontR,
    imageOptimization := imageOptimizationOf okImageR,
    ctaAnalysis := ctaSectionOf okCtaR,
    overallScore := 75 }

/-- A successful analyze response (as the client would read it) whose
report embeds a pipeline-provided screenshot URL. -/
def pipelineShotResp : AnalyzeSuccessResponse :=
  { analysisData := { screenshotUrl := some "https://pipeline.example/full.png",
                      payload := "report" },
    fromCache := none, analysisId := some "id-9" }

/-! ## Helper lemmas about the client email flow -/

/-- While no analysisId is known, an email submission only flags the
submission and stores the address in the single-slot holder. -/
lemma handleEmailSubmit_noId (e : String) (st : HomeState)
    (h : st.analysisState.analysisId = none) :
    handleEmailSubmit e st =
      { st with
        pendingEmail := some e,
        analysisState := { st.analysisState with emailLoading := true, emailSubmitted := true } } := by
  unfold handleEmailSubmit
  rw [h]
  simp [truthy]

/-- Folding a burst of submissions peels off the last one. -/
lemma submitEmails_snoc (es : List String) (e : String) (st : HomeState) :
    submitEmails (es ++ [e]) st = handleEmailSubmit e (submitEmails es st) := by
  unfold submitEmails
  rw [List.foldl_append]
  rfl

/-- While no analysisId is known, any burst of email submissions leaves
the analysisId absent and dispatches nothing. -/
lemma submitEmails_noId (es : List String) (st : HomeState)
    (h : st.analysisState.analysisId = none) :
    (submitEmails es st).analysisState.analysisId = none ∧
    (submitEmails es st).emailCalls = st.emailCalls := by
  induction es generalizing st with
  | nil => exact ⟨h, rfl⟩
  | cons a es ih =>
    have hs := handleEmailSubmit_noId a st h
    have h1 : (handleEmailSubmit a st).analysisState.analysisId = none := by rw [hs]; exact h
    have h2 : (handleEmailSubmit a st).emailCalls = st.emailCalls := by rw [hs]
    have hc : submitEmails (a :: es) st = submitEmails es (handleEmailSubmit a st) := rfl
    rw [hc]
    obtain ⟨ha, hcalls⟩ := ih (handleEmailSubmit a st) h1
    exact ⟨ha, by rw [hcalls, h2]⟩

/-! ## Claim C1 -/

/-- The `pageLoadSpeed` section the guarded speed block leaves behind for
each analyzer outcome. -/
def speedOutcomeSection : Except String PageSpeedResult → PageSpeedResult
  | .ok r => pageLoadSpeedOf r
  | .error _ => pageSpeedFailureSection

/-- The `ctaAnalysis` section the guarded CTA block leaves behind for
each analyzer outcome. -/
def ctaOutcomeSection : Except String CTAResult → CTASection
  | .ok r => ctaSectionOf r
  | .error _ => ctaFailureSection

/-- C1, counterexample: with the component filter absent (all analyzers
selected) and exactly the font analyzer throwing while its three
siblings would succeed, the run does NOT produce a report with a failed
font section — it aborts with `Internal server error` 500 after invoking
only speed and font, contrary to the claimed failure-isolation
invariant. -/
theorem failureIsolation_counterexample :
    envFontFail.analyzePageSpeed = .ok okSpeedR ∧
    envFontFail.analyzeImageOptimization = .ok okImageR ∧
    envFontFail.analyzeCTA = .ok okCtaR ∧
    (POST allBody envFontFail).fst = .jsonError "Internal server error" 500 ∧
    (POST allBody envFontFail).fst.isSuccess = false ∧
    (POST allBody envFontFail).snd = ["speed", "font"] :=
  ⟨rfl, rfl, rfl, by decide, by decide, by decide⟩

/-- C1, amended: failure isolation holds only for the page-speed and CTA
analyzers (the two wrapped in `try`/`catch`).  If the font and image
analyzers return normally, then whatever the speed and CTA analyzers do
(succeed or throw), the run returns a report in which each of those two
kinds carries its own outcome (success section or failure placeholder)
and every sibling keeps its own outcome. -/
theorem failureIsolationSpeedCta (u : String) (pu : ParsedURL) (env : AnalyzerEnv)
    (fr : FontUsageResult) (ir : ImageOptimizationResult)
    (hu : u ≠ "") (hparse : parseURL u = some pu)
    (hproto : pu.protocol = "http:" ∨ pu.protocol = "https:")
    (hf : env.analyzeFontUsage = .ok fr) (hi : env.analyzeImageOptimization = .ok ir) :
    (POST { url := some u, component := none, forceRescan := none } env).fst =
      .success
        { url := pu.raw,
          pageLoadSpeed := speedOutcomeSection env.analyzePageSpeed,
          fontUsage := fontUsageOf fr,
          imageOptimization := imageOptimizationOf ir,
          ctaAnalysis := ctaOutcomeSection env.analyzeCTA,
          whitespaceAssessment := { score := 0, issues := [] },
          socialProof := { score := 0, elements := [], issues := [] },
          overallScore := computeOverall (succeededScores none env),
          status := "completed" } := by
  have htr : truthy (some u) = true := by simp [truthy, hu]
  unfold POST
  rw [htr]
  simp only [Option.getD_some, hparse]
  have hpr : (pu.protocol == "http:" || pu.protocol == "https:") = true := by
    rcases hproto with h | h <;> simp [h]
  rw [hpr]
  rcases hs : env.analyzePageSpeed with r | e <;> rcases hc : env.analyzeCTA with r2 | e2 <;>
    simp [runAnalyzers, speedBlock, fontBlock, imageBlock, ctaBlock, shouldRun,
      speedSelected, truthy, hf, hi, hs, hc, speedOutcomeSection, ctaOutcomeSection,
      succeededScores, speedScores, fontScores, imageScores, ctaScores,
      initialAnalysisResult]

/-- C1, witness for the amended statement at a concrete input: speed
throws, font/image/cta succeed; the run returns a report whose speed
section is the failure placeholder while the siblings keep their
outcomes. -/
theorem failureIsolationSpeedCta_witness :
    (POST { url := some "https://example.com", component := none, forceRescan := none }
        envSpeedFail).fst =
      .success
        { url := "https://example.com",
          pageLoadSpeed := speedOutcomeSection envSpeedFail.analyzePageSpeed,
          fontUsage := fontUsageOf okFontR,
          imageOptimization := imageOptimizationOf okImageR,
          ctaAnalysis := ctaOutcomeSection envSpeedFail.analyzeCTA,
          whitespaceAssessment := { score := 0, issues := [] },
          socialProof := { score := 0, elements := [], issues := [] },
          overallScore := computeOverall (succeededScores none envSpeedFail),
          status := "completed" } :=
  failureIsolationSpeedCta "https://example.com"
    { protocol := "https:", raw := "https://example.com" } envSpeedFail okFontR okImageR
    (by decide) (by decide) (Or.inr rfl) rfl rfl

/-! ## Claim C2 -/

/-- C2, counterexample: with the component filter absent and all four
analyzers failing, zero analyzers succeeded, yet the run does not return
a report with `overallScore = 0` — it returns the 500 error (the
unguarded font analyzer's exception escapes). -/
theorem overallScore_counterexample :
    succeededScores allBody.component envAllFail = [] ∧
    (POST allBody envAllFail).fst = .jsonError "Internal server error" 500 ∧
    (POST allBody envAllFail).fst.isSuccess = false := by decide

/-- C2, amended: every run that does return a report has
`overallScore = round(mean of the succeeded analyzers' scores)`, and `0`
when no analyzer succeeded; but when a selected font or image analyzer
throws, the run returns an error instead of a report. -/
theorem overallScoreOfReport (body : AnalyzeBody) (env : AnalyzerEnv)
    (a : AnalysisResult) (tr : List String) (h : POST body env = (.success a, tr)) :
    a.overallScore =
      if (succeededScores body.component env).length > 0 then
        mathRoundDiv (succeededScores body.component env).sum
          (succeededScores body.component env).length
      else 0 := by
  have := (POST_success body env a tr h).1
  rw [this]
  rfl

/-- C2, witness: the spec's worked example — all four analyzers succeed
with 80/60/90/70 and the returned report's `overallScore` is 75. -/
theorem overallScoreOfReport_witness :
    reportAllOk.overallScore =
      (if (succeededScores allBody.component envAllOk).length > 0 then
        mathRoundDiv (succeededScores allBody.component envAllOk).sum
          (succeededScores allBody.component envAllOk).length
      else 0) ∧
    reportAllOk.overallScore = 75 :=
  ⟨overallScoreOfReport allBody envAllOk reportAllOk ["speed", "font", "image", "cta"]
      (by decide),
    by decide⟩

/-! ## Claim C3 -/

/-- C3, counterexample: a repeat submission of the same URL without
`forceRescan` (the route never reads that flag, so the second run is the
same function of the same body) invokes all four analyzers again and its
response carries no `fromCache` key — there is no cache consultation and
no cached short-circuit. -/
theorem noCache_counterexample :
    allBody.forceRescan = none ∧
    (POST allBody envAllOk).snd = ["speed", "font", "image", "cta"] ∧
    "fromCache" ∉ responseKeys (POST allBody envAllOk).fst := by decide

/-- C3, amended: the analyze route implements no result cache.  Every
submission — first or repeated — runs the same full pipeline: the
response is a function of the body and analyzer outcomes alone, the
`forceRescan` flag is ignored, and no response carries a `fromCache`
key. -/
theorem noCacheInRoute (body : AnalyzeBody) (env : AnalyzerEnv) (b : Option Bool) :
    POST { url := body.url, component := body.component, forceRescan := b } env
      = POST body env ∧
    "fromCache" ∉ responseKeys (POST body env).fst := by
  constructor
  · rcases body with ⟨u, c, f⟩
    rfl
  · cases hp : (POST body env).fst <;> simp only [responseKeys] <;> decide

/-! ## Claim C4 -/

/-- Every error response of the route carries status 400 or 500. -/
lemma POST_error_status (body : AnalyzeBody) (env : AnalyzerEnv) (e : String) (s : Nat)
    (h : (POST body env).fst = .jsonError e s) : s = 400 ∨ s = 500 := by
  unfold POST at h
  split at h
  · simp only [PostResponse.jsonError.injEq] at h
    exact Or.inl h.2.symm
  · split at h
    · simp only [PostResponse.jsonError.injEq] at h
      exact Or.inl h.2.symm
    · split at h
      · simp only [PostResponse.jsonError.injEq] at h
        exact Or.inl h.2.symm
      · rcases hr : runAnalyzers body.component env _ with ⟨st, e2⟩
        rw [hr] at h
        cases e2 with
        | some ex =>
          simp only [PostResponse.jsonError.injEq] at h
          exact Or.inr h.2.symm
        | none => simp at h

/-- C4, amended: a successful submission answers with the JSON object
`{ success: true, analysis, message }` at status 200 — it contains the
report but neither a `fromCache` flag nor an `analysisId`; a validation
or internal failure answers `{ error }` with a non-success status (400
or 500). -/
theorem responseShape (body : AnalyzeBody) (env : AnalyzerEnv) :
    ((POST body env).fst.isSuccess = true →
        responseKeys (POST body env).fst = ["success", "analysis", "message"] ∧
        statusOf (POST body env).fst = 200) ∧
    ((POST body env).fst.isSuccess = false →
        responseKeys (POST body env).fst = ["error"] ∧
        (statusOf (POST body env).fst = 400 ∨ statusOf (POST body env).fst = 500)) := by
  constructor
  · intro h
    cases hp : (POST body env).fst with
    | success a => exact ⟨rfl, rfl⟩
    | jsonError e s =>
      rw [hp] at h
      simp [PostResponse.isSuccess] at h
  · intro h
    cases hp : (POST body env).fst with
    | success a =>
      rw [hp] at h
      simp [PostResponse.isSuccess] at h
    | jsonError e s => exact ⟨rfl, POST_error_status body env e s hp⟩

/-- C4, witness: a concrete successful run answers with exactly the keys
`success`, `analysis`, `message` at status 200. -/
theorem responseShape_witness :
    responseKeys (POST allBody envAllOk).fst = ["success", "analysis", "message"] ∧
    statusOf (POST allBody envAllOk).fst = 200 :=
  (responseShape allBody envAllOk).1 (by decide)

/-- C4, counterexample: the same concrete successful run's response has
no `fromCache` key and no `analysisId` key, contrary to the claimed
response shape. -/
theorem responseShape_counterexample :
    (POST allBody envAllOk).fst.isSuccess = true ∧
    "fromCache" ∉ responseKeys (POST allBody envAllOk).fst ∧
    "analysisId" ∉ responseKeys (POST allBody envAllOk).fst := by decide

/-! ## Claim C5 -/

/-- C5: emails submitted while no analysisId exists land in the
single-slot pending holder (last submission wins and nothing is
dispatched yet); when the pipeline then completes with a (truthy)
analysisId, the held email is posted to the email API exactly once —
one new `(email, analysisId)` call — and the holder is cleared. -/
theorem pendingEmailFlushedOnce (st : HomeState) (es : List String) (e : String)
    (resp : AnalyzeSuccessResponse) (id : String)
    (h0 : st.analysisState.analysisId = none) (he : e ≠ "")
    (hid : resp.analysisId = some id) (hids : id ≠ "") :
    (submitEmails (es ++ [e]) st).pendingEmail = some e ∧
    (submitEmails (es ++ [e]) st).emailCalls = st.emailCalls ∧
    (handleAnalyzeSuccess resp (submitEmails (es ++ [e]) st)).emailCalls
      = st.emailCalls ++ [(e, id)] ∧
    (handleAnalyzeSuccess resp (submitEmails (es ++ [e]) st)).pendingEmail = none := by
  obtain ⟨hida, hcalls⟩ := submitEmails_noId es st h0
  have hsnoc := submitEmails_snoc es e st
  have hlast := handleEmailSubmit_noId e (submitEmails es st) hida
  have hpend : (submitEmails (es ++ [e]) st).pendingEmail = some e := by
    rw [hsnoc, hlast]
  have hcalls1 : (submitEmails (es ++ [e]) st).emailCalls = st.emailCalls := by
    rw [hsnoc, hlast]
    exact hcalls
  refine ⟨hpend, hcalls1, ?_, ?_⟩ <;>
  · unfold handleAnalyzeSuccess
    rw [hpend, hid]
    simp [truthy, he, hids, callEmailAPI, hcalls1]

/-- C5, witness: two emails submitted before any analysisId exists; after
completion with analysisId `id-1`, exactly the second email is dispatched
once and the holder is empty. -/
theorem pendingEmailFlushedOnce_witness :
    (submitEmails (["first@example.com"] ++ ["second@example.com"]) initialHomeState).pendingEmail
      = some "second@example.com" ∧
    (submitEmails (["first@example.com"] ++ ["second@example.com"]) initialHomeState).emailCalls
      = initialHomeState.emailCalls ∧
    (handleAnalyzeSuccess
        { analysisData := { screenshotUrl := none, payload := "report" },
          fromCache := none, analysisId := some "id-1" }
        (submitEmails (["first@example.com"] ++ ["second@example.com"]) initialHomeState)).emailCalls
      = initialHomeState.emailCalls ++ [("second@example.com", "id-1")] ∧
    (handleAnalyzeSuccess
        { analysisData := { screenshotUrl := none, payload := "report" },
          fromCache := none, analysisId := some "id-1" }
        (submitEmails (["first@example.com"] ++ ["second@example.com"]) initialHomeState)).pendingEmail
      = none :=
  pendingEmailFlushedOnce initialHomeState ["first@example.com"] "second@example.com"
    { analysisData := { screenshotUrl := none, payload := "report" },
      fromCache := none, analysisId := some "id-1" }
    "id-1" rfl (by decide) rfl (by decide)

/-! ## Claim C6 -/

/-- C6: the factory attempts a remote connection exactly when the
Browserless credential is configured (truthy) and the environment is
production or remote is forced; a missing credential forces the local
launch regardless of mode; and a failed remote connection surfaces as an
error — it is never silently replaced by a local launch. -/
theorem browserSelectionPolicy (cfg : BrowserEnvConfig) (opts : PuppeteerOptions)
    (connectResult : Except String Unit) :
    (attemptedRemote (createPuppeteerBrowser cfg opts connectResult)
        = (truthy cfg.blessKey && (cfg.isProduction || opts.forceBrowserless))) ∧
    (truthy cfg.blessKey = false →
        createPuppeteerBrowser cfg opts connectResult = .ok .localLaunch) ∧
    (∀ msg, ((cfg.isProduction || opts.forceBrowserless) && truthy cfg.blessKey) = true →
        connectResult = .error msg →
        createPuppeteerBrowser cfg opts connectResult
          = .error ("Browserless connection failed: " ++ msg)) := by
  refine ⟨?_, ?_, ?_⟩
  · unfold createPuppeteerBrowser attemptedRemote
    cases hp : cfg.isProduction <;> cases hf : opts.forceBrowserless <;>
      cases hk : truthy cfg.blessKey <;> cases connectResult <;> simp [hp, hf, hk]
  · intro h
    unfold createPuppeteerBrowser
    simp [h]
  · intro msg hcond hconn
    unfold createPuppeteerBrowser
    rw [hcond, hconn]
    simp

/-- C6, witness: production mode with a configured key and a failing
remote connection yields the connection-failure error, not a local
launch. -/
theorem browserSelectionPolicy_witness :
    createPuppeteerBrowser { isProduction := true, blessKey := some "k" }
        { forceBrowserless := false, blockConsentModals := false }
        (.error "socket hang up")
      = .error ("Browserless connection failed: " ++ "socket hang up") :=
  (browserSelectionPolicy { isProduction := true, blessKey := some "k" }
      { forceBrowserless := false, blockConsentModals := false }
      (.error "socket hang up")).2.2 "socket hang up" (by decide) rfl

/-! ## Claim C7 -/

/-- C7: a request whose URL is missing, and a request whose URL parses
with a scheme other than http/https, are both rejected with a 400 client
error, with no analyzer invocation (hence no browser use which, in this
route, only happens inside analyzer calls). -/
theorem invalidRequestRejectedEarly (body : AnalyzeBody) (env : AnalyzerEnv)
    (h : body.url = none ∨
      ∃ u pu, body.url = some u ∧ parseURL u = some pu ∧
        pu.protocol ≠ "http:" ∧ pu.protocol ≠ "https:") :
    statusOf (POST body env).fst = 400 ∧
    (POST body env).fst.isSuccess = false ∧
    (POST body env).snd = [] := by
  rcases h with h | ⟨u, pu, hu, hparse, h1, h2⟩
  · unfold POST
    rw [h]
    exact ⟨rfl, rfl, rfl⟩
  · unfold POST
    rw [hu]
    by_cases hue : u = ""
    · subst hue
      exact ⟨rfl, rfl, rfl⟩
    · have htr : truthy (some u) = true := by simp [truthy, hue]
      rw [htr]
      simp only [Option.getD_some, hparse]
      have hpr : (pu.protocol == "http:" || pu.protocol == "https:") = false := by
        simp [h1, h2]
      rw [hpr]
      exact ⟨rfl, rfl, rfl⟩

/-- C7, witness: `ftp://example.com` is rejected with a 400 and an empty
invocation trace. -/
theorem invalidRequestRejectedEarly_witness :
    statusOf (POST { url := some "ftp://example.com", component := none, forceRescan := none }
        envAllOk).fst = 400 ∧
    (POST { url := some "ftp://example.com", component := none, forceRescan := none }
        envAllOk).fst.isSuccess = false ∧
    (POST { url := some "ftp://example.com", component := none, forceRescan := none }
        envAllOk).snd = [] :=
  invalidRequestRejectedEarly
    { url := some "ftp://example.com", component := none, forceRescan := none } envAllOk
    (Or.inr ⟨"ftp://example.com", { protocol := "ftp:", raw := "ftp://example.com" },
      rfl, by decide, by decide, by decide⟩)

/-! ## Claim C8 -/

/-- C8, counterexample: an email submitted during a first session that
errors out stays in the pending holder across the next `submit(url)`,
and is then dispatched against the NEW session's analysisId — the
submit transition does not clear the single-slot holder. -/
theorem submitKeepsStaleEmail_counterexample :
    (handleAnalyzeStart "https://second.example"
        (handleAnalyzeFailure "Analysis failed"
          (handleEmailSubmit "stale@example.com"
            (handleAnalyzeStart "https://first.example" initialHomeState)))).pendingEmail
      = some "stale@example.com" ∧
    (handleAnalyzeSuccess
        { analysisData := { screenshotUrl := none, payload := "report2" },
          fromCache := none, analysisId := some "id-2" }
        (handleAnalyzeStart "https://second.example"
          (handleAnalyzeFailure "Analysis failed"
            (handleEmailSubmit "stale@example.com"
              (handleAnalyzeStart "https://first.example" initialHomeState))))).emailCalls
      = [("stale@example.com", "id-2")] := by decide

/-- C8, amended: `submit(url)` resets every `AnalysisState` field
(result, error, and the email flags emailSubmitted / emailSentToAPI /
emailLoading), but it does NOT clear the single-slot pending-email
holder — only `reset` clears that — so a not-yet-dispatched email from a
prior session survives into the new session. -/
theorem submitResetsStateNotPendingEmail (st : HomeState) (url : String) :
    (handleAnalyzeStart url st).analysisState =
      { result := none, isLoading := true, error := none, showEmailInput := true,
        currentUrl := some url, fromCache := false, emailSubmitted := false,
        emailSentToAPI := false, screenshotUrl := none, analysisId := none,
        emailLoading := false } ∧
    (handleAnalyzeStart url st).pendingEmail = st.pendingEmail ∧
    (handleReset st).pendingEmail = none :=
  ⟨rfl, rfl, rfl⟩

/-! ## Claim C9 -/

/-- C9, counterexample: when the screenshot service's response arrives
AFTER the pipeline's report has been applied, the provisional screenshot
overwrites the pipeline's screenshot URL — the pipeline's value does not
take precedence in this completion order. -/
theorem screenshotOrder_counterexample :
    pipelineShotResp.analysisData.screenshotUrl = some "https://pipeline.example/full.png" ∧
    (screenshotResolve (some "https://service.example/late.png")
        (handleAnalyzeSuccess pipelineShotResp
          (handleAnalyzeStart "https://site.example" initialHomeState))).analysisState.screenshotUrl
      = some "https://service.example/late.png" ∧
    some "https://service.example/late.png" ≠ pipelineShotResp.analysisData.screenshotUrl := by
  decide

/-- C9, amended: the pipeline's screenshot URL (when truthy) supersedes
the provisional preview only when the screenshot completion has already
been applied when the pipeline completes; a late screenshot completion
overwrites it.  A screenshot failure changes nothing and never fails or
delays the analysis result. -/
theorem screenshotPrecedenceEarlyOnly (st : HomeState) (s : Option String)
    (resp : AnalyzeSuccessResponse) (h : truthy resp.analysisData.screenshotUrl = true) :
    (handleAnalyzeSuccess resp (screenshotResolve s st)).analysisState.screenshotUrl
      = resp.analysisData.screenshotUrl ∧
    handleAnalyzeSuccess resp (screenshotReject st) = handleAnalyzeSuccess resp st ∧
    (handleAnalyzeSuccess resp (screenshotReject st)).analysisState.result
      = some resp.analysisData := by
  refine ⟨?_, rfl, ?_⟩
  · unfold handleAnalyzeSuccess screenshotResolve
    split <;> simp [callEmailAPI, jsOrElse, h]
  · unfold handleAnalyzeSuccess screenshotReject
    split <;> simp [callEmailAPI]

/-- C9, witness: with an early screenshot preview already applied, a
pipeline report carrying its own screenshot URL supersedes the
preview. -/
theorem screenshotPrecedence_witness :
    (handleAnalyzeSuccess pipelineShotResp
        (screenshotResolve (some "https://service.example/early.png")
          initialHomeState)).analysisState.screenshotUrl
      = pipelineShotResp.analysisData.screenshotUrl :=
  (screenshotPrecedenceEarlyOnly initialHomeState (some "https://service.example/early.png")
      pipelineShotResp (by decide)).1

/-! ## Claim C10 -/

/-- C10, counterexample: with the component field present but equal to
the empty string — which is neither absent, nor `all`, nor any analyzer
name or alias — all four analyzers still run (JavaScript `!component`
treats the empty string as absent). -/
theorem componentFilter_counterexample :
    (POST { url := some "https://example.com", component := some "", forceRescan := none }
        envAllOk).snd = ["speed", "font", "image", "cta"] ∧
    (some "" : Option String) ≠ none ∧
    "" ≠ "all" ∧ "" ≠ "speed" ∧ "" ≠ "pageSpeed" ∧ "" ≠ "font" ∧
    "" ≠ "image" ∧ "" ≠ "cta" := by decide

/-- C10, amended: an analyzer is selected iff the component field is
falsy (absent or empty), equals `all`, or equals that analyzer's name
(the speed analyzer also accepting the alias `pageSpeed`) — this is
`selectedAnalyzers`.  In every run that returns a report the invoked
analyzers are exactly the selected ones, and a component matching no
analyzer yields the success response with the all-default report
(`overallScore = 0`) and no analyzer invocation. -/
theorem componentFilterSelection (body : AnalyzeBody) (env : AnalyzerEnv) (pu : ParsedURL)
    (hsome : truthy body.url = true)
    (hparse : parseURL (body.url.getD "") = some pu)
    (hproto : pu.protocol = "http:" ∨ pu.protocol = "https:") :
    (∀ a tr, POST body env = (.success a, tr) → tr = selectedAnalyzers body.component) ∧
    (selectedAnalyzers body.component = [] →
        POST body env = (.success (initialAnalysisResult pu.raw), [])) := by
  constructor
  · intro a tr h
    exact (POST_success body env a tr h).2
  · intro hempty
    have hsel : speedSelected body.component = false ∧
        shouldRun body.component "font" = false ∧
        shouldRun body.component "image" = false ∧
        shouldRun body.component "cta" = false := by
      by_cases h1 : speedSelected body.component <;>
        by_cases h2 : shouldRun body.component "font" <;>
        by_cases h3 : shouldRun body.component "image" <;>
        by_cases h4 : shouldRun body.component "cta" <;>
        simp [selectedAnalyzers, h1, h2, h3, h4] at hempty ⊢
    obtain ⟨h1, h2, h3, h4⟩ := hsel
    unfold POST
    rw [hsome]
    simp only [Option.getD_some, hparse]
    have hpr : (pu.protocol == "http:" || pu.protocol == "https:") = true := by
      rcases hproto with h | h <;> simp [h]
    rw [hpr]
    simp [runAnalyzers, speedBlock, fontBlock, imageBlock, ctaBlock, h1, h2, h3, h4,
      computeOverall, initialAnalysisResult]

/-- C10, witness: component `whitespace` matches no analyzer; the run
succeeds with the all-default report and an empty invocation trace. -/
theorem componentFilterSelection_witness :
    POST { url := some "https://example.com", component := some "whitespace",
           forceRescan := none } envAllOk
      = (.success (initialAnalysisResult "https://example.com"), []) :=
  (componentFilterSelection
      { url := some "https://example.com", component := some "whitespace", forceRescan := none }
      envAllOk { protocol := "https:", raw := "https://example.com" }
      (by decide) (by decide) (Or.inr rfl)).2 (by decide)

end LPA

